import Mathlib

set_option autoImplicit false

namespace BrowserQuery

/-! Association-list helpers used to model Go maps and Redis hashes. -/

def alGet {α : Type} (l : List (String × α)) (k : String) : Option α :=
  match l with
  | [] => none
  | (k0, v0) :: rest => if k0 = k then some v0 else alGet rest k

def alSet {α : Type} (l : List (String × α)) (k : String) (v : α) : List (String × α) :=
  match l with
  | [] => [(k, v)]
  | (k0, v0) :: rest => if k0 = k then (k, v) :: rest else (k0, v0) :: alSet rest k v

def alDel {α : Type} (l : List (String × α)) (k : String) : List (String × α) :=
  l.filter (fun kv => kv.1 ≠ k)

def alHas {α : Type} (l : List (String × α)) (k : String) : Bool :=
  (alGet l k).isSome

/-! Calendar dates and instants, standing in for Go time.Time.  Only the
pieces the code observes are modelled: an abstract instant and the
calendar date that `Format("2006-01-02")` renders. -/

structure Date where
  year : Nat
  month : Nat
  day : Nat
deriving DecidableEq

def pad2 (n : Nat) : String :=
  if n < 10 then "0" ++ toString n else toString n

def pad4 (n : Nat) : String :=
  if n < 10 then "000" ++ toString n
  else if n < 100 then "00" ++ toString n
  else if n < 1000 then "0" ++ toString n
  else toString n

def formatDate (d : Date) : String :=
  pad4 d.year ++ "-" ++ pad2 d.month ++ "-" ++ pad2 d.day

structure Time where
  instant : Nat
  date : Date
deriving DecidableEq

def timeZero : Time := { instant := 0, date := { year := 1, month := 1, day := 1 } }

/-! URL-safe base64 with padding, as `encoding/base64.URLEncoding` applies it
in generateSessionID. -/

def b64urlChars : List Char :=
  ("ABCDEFGHIJKLMNOPQRSTUVWXYZabcdefghijklmnopqrstuvwxyz0123456789-_").toList

def b64char (n : Nat) : Char := b64urlChars.getD n 'A'

def base64urlEncode : List Nat → List Char
  | [] => []
  | [a] => [b64char (a / 4), b64char (a % 4 * 16), '=', '=']
  | [a, b] => [b64char (a / 4), b64char (a % 4 * 16 + b / 16), b64char (b % 16 * 4), '=']
  | a :: b :: c :: rest =>
      b64char (a / 4) :: b64char (a % 4 * 16 + b / 16) ::
      b64char (b % 16 * 4 + c / 64) :: b64char (c % 64) :: base64urlEncode rest

/-- generateSessionID from internal/session: the crypto/rand bytes are passed
in as a parameter; the function is total on any byte list, the service always
calls it with 16 bytes. -/
def generateSessionID (randomBytes : List Nat) : String :=
  "sess_" ++ String.mk (base64urlEncode randomBytes)

/-! The session record (internal/session Session struct).  Status is a string
in the source (`type SessionStatus string`). -/

def SessionActive : String := "active"
def SessionClosed : String := "closed"
def SessionExpired : String := "expired"

structure Session where
  id : String
  name : String
  agentID : String
  processPort : Nat
  contextID : String
  pageIDs : List String
  createdAt : Time
  lastActivity : Time
  status : String
deriving DecidableEq

def defaultSessionNameStem : String := "session"

/-- Manager.generateSessionName: stem, creation date, then ID[5:13] (the 8
characters after the "sess_" prefix). -/
def generateSessionName (s : Session) : String :=
  defaultSessionNameStem ++ "-" ++ formatDate s.createdAt.date ++ "-" ++
    String.mk ((s.id.toList.drop 5).take 8)

/-- The shape required by the documented session-id pattern
`^sess_[A-Za-z0-9_\-]+=*$`. -/
def matchesSessIdPattern (s : String) : Prop :=
  ∃ body pad : List Char,
    s.toList = ("sess_").toList ++ body ++ pad ∧ body ≠ [] ∧
    (∀ c ∈ body, c ∈ b64urlChars) ∧ (∀ c ∈ pad, c = '=')

/-! Port allocator (internal/browser/helpers.go).  The pool keeps ports as
strings; the stack's top is the end of the slice; the listen-probe is the
environment and is passed in as a function. -/

namespace browser

def minPortRange : Nat := 9222
def maxPortRange : Nat := 9272

structure PortPool where
  freePortsStack : List String
  freePortsSet : List String
deriving DecidableEq

/-- The init block: ports 9222..9271 pushed in increasing order. -/
def initPool : PortPool :=
  { freePortsStack := (List.range (maxPortRange - minPortRange)).map
      (fun i => toString (minPortRange + i)),
    freePortsSet := (List.range (maxPortRange - minPortRange)).map
      (fun i => toString (minPortRange + i)) }

/-- One iteration per stack element suffices, so the pop-until-probe loop of
GetFreePort recurses on that bound. -/
def getFreePortLoop (probe : String → Bool) : Nat → PortPool → Option String × PortPool
  | 0, p => (none, p)
  | fuel + 1, p =>
      match p.freePortsStack.getLast? with
      | none => (none, p)
      | some port =>
          let p1 : PortPool :=
            { freePortsStack := p.freePortsStack.dropLast,
              freePortsSet := p.freePortsSet.filter (fun x => x ≠ port) }
          if probe port then (some port, p1) else getFreePortLoop probe fuel p1

/-- GetFreePort: pop from the stack (deleting from the set) until a port
passes the listen-probe; a port failing the probe is discarded, not
re-pooled. -/
def GetFreePort (probe : String → Bool) (p : PortPool) : Option String × PortPool :=
  getFreePortLoop probe p.freePortsStack.length p

/-- strconv.Atoi on the relevant inputs: a non-empty all-digit string parses
to its decimal value, anything else is an error. -/
def parsePort (s : String) : Option Nat :=
  if s.toList ≠ [] ∧ s.toList.all (fun c => c.isDigit) then
    some (s.toList.foldl (fun n c => n * 10 + (c.toNat - 48)) 0)
  else none

/-- ReturnPort: rejected outside [9222, 9272) or when unparsable; a no-op if
already free; otherwise pushed back on the stack and set. -/
def ReturnPort (p : PortPool) (port : String) : PortPool :=
  match parsePort port with
  | none => p
  | some portInt =>
      if portInt < minPortRange ∨ maxPortRange ≤ portInt then p
      else if port ∈ p.freePortsSet then p
      else { freePortsStack := p.freePortsStack ++ [port],
             freePortsSet := port :: p.freePortsSet }

/-! Allocation traces.  `acquire` pops via GetFreePort and records the port as
held by a caller; `release port` is only performed by a caller holding the
port (the contract: each acquired port is returned, exactly once). -/

inductive PoolOp
  | acquire
  | release (port : String)
deriving DecidableEq

structure PoolRun where
  pool : PortPool
  held : List String
deriving DecidableEq

def stepPool (probe : String → Bool) (st : PoolRun) : PoolOp → PoolRun
  | .acquire =>
      match GetFreePort probe st.pool with
      | (some port, pool1) => { pool := pool1, held := st.held ++ [port] }
      | (none, pool1) => { pool := pool1, held := st.held }
  | .release port =>
      if port ∈ st.held then
        { pool := ReturnPort st.pool port, held := st.held.erase port }
      else st

def runPool (probe : String → Bool) (ops : List PoolOp) : PoolRun :=
  ops.foldl (stepPool probe) { pool := initPool, held := [] }

/-- The free set and the free stack hold the same ports, each exactly once. -/
def poolAligned (p : PortPool) : Prop :=
  p.freePortsSet.Perm p.freePortsStack

end browser

/-! Protocol client (the cdp package Client).  The pending map is modelled by
the set of registered request ids; a call's fate (matching frame, protocol
error, write failure, deadline, shutdown signal) is the environment and is
passed in as an outcome. -/

namespace cdp

inductive SendOutcome
  | ok
  | protoErr
  | writeFail
  | timeout
  | clientClosed
deriving DecidableEq

structure ClientState where
  requestID : Nat
  pending : List Nat
  targetSessions : List (String × String)
  closed : Bool
deriving DecidableEq

/-- Modelled from the spec: the Client.handleMessage body is not among the
source files (only its call site in readLoop is).  Per the spec, a frame
carrying an id is a response: the pending call is looked up under the lock,
the response is delivered on its capacity-1 channel, and the entry is
removed. -/
def handleMessage (st : ClientState) (id : Nat) : ClientState :=
  { st with pending := st.pending.erase id }

/-- Client.SendCommand: allocate the next id and register the pending
channel under the lock; then write and wait.  On a write failure or on the
10s deadline the caller deletes its own entry; on a delivered frame the
reader's handleMessage deleted it; on shutdown the caller returns without
touching the map (Close clears it). -/
def SendCommand (st : ClientState) (outcome : SendOutcome) :
    Except String Unit × ClientState :=
  let id := st.requestID + 1
  let st1 : ClientState := { st with requestID := id, pending := id :: st.pending }
  match outcome with
  | .writeFail => (.error "failed to send command",
      { st1 with pending := st1.pending.erase id })
  | .ok => (.ok (), handleMessage st1 id)
  | .protoErr => (.error "CDP error", handleMessage st1 id)
  | .timeout => (.error "command timeout after 10 seconds",
      { st1 with pending := st1.pending.erase id })
  | .clientClosed => (.error "client closed", st1)

/-- Client.Close: one-shot; cancels the reader, closes the channel, then
closes and drops every pending channel. -/
def Close (st : ClientState) : ClientState :=
  if st.closed then st else { st with closed := true, pending := [] }

/-- Client.SendCommandToTarget, sequential view: when no attachment label is
cached the attach round-trip runs first (its own SendCommand), the label is
stored, and then the target-scoped command follows the same
register/write/wait path with a 30s deadline. -/
def SendCommandToTarget (st : ClientState) (targetID label : String)
    (attachOutcome cmdOutcome : SendOutcome) :
    Except String Unit × ClientState :=
  match alGet st.targetSessions targetID with
  | some _ =>
      SendCommand st cmdOutcome
  | none =>
      match SendCommand st attachOutcome with
      | (.error e, st1) => (.error ("failed to attach to target: " ++ e), st1)
      | (.ok _, st1) =>
          let st2 : ClientState :=
            { st1 with targetSessions := alSet st1.targetSessions targetID label }
          SendCommand st2 cmdOutcome

/-! Interleaved view of SendCommandToTarget's attachment phase, for one
client and one target.  A caller holds the mutex only for the cache check
and for the store; the attach round-trip runs unlocked, so two callers can
both observe an empty cache before either stores a label. -/

inductive CallerPC
  | start
  | attaching
  | storing
  | sending
  | done
deriving DecidableEq

structure RaceState where
  cache : Option String
  attachCount : Nat
  pc1 : CallerPC
  pc2 : CallerPC
deriving DecidableEq

/-- One atomic step of a caller: the locked cache check, the unlocked
Target.attachToTarget send, the locked store, the target-scoped send. -/
def stepCaller (cache : Option String) (count : Nat) (pc : CallerPC) (label : String) :
    Option String × Nat × CallerPC :=
  match pc with
  | .start =>
      match cache with
      | some _ => (cache, count, .sending)
      | none => (cache, count, .attaching)
  | .attaching => (cache, count + 1, .storing)
  | .storing => (some label, count, .sending)
  | .sending => (cache, count, .done)
  | .done => (cache, count, .done)

def stepRace (st : RaceState) (who : Bool) : RaceState :=
  if who then
    let r := stepCaller st.cache st.attachCount st.pc1 "label-1"
    { st with cache := r.1, attachCount := r.2.1, pc1 := r.2.2 }
  else
    let r := stepCaller st.cache st.attachCount st.pc2 "label-2"
    { st with cache := r.1, attachCount := r.2.1, pc2 := r.2.2 }

def runRace (st : RaceState) (sched : List Bool) : RaceState :=
  sched.foldl stepRace st

def raceInit : RaceState :=
  { cache := none, attachCount := 0, pc1 := .start, pc2 := .start }

end cdp

/-! Durable index (internal/storage).  Redis is modelled by its observable
key spaces: hashes, sets, the JSON-blob satellites (pages, cookies,
localStorage, kept as structured values), and a per-key expiry deadline.
Hash values keep their written type; Go reads an absent hash field as "". -/

namespace storage

inductive HVal
  | s (v : String)
  | n (v : Nat)
  | t (v : BrowserQuery.Time)
deriving DecidableEq

def hvalStr : Option HVal → String
  | some (.s v) => v
  | _ => ""

def hvalNat : Option HVal → Nat
  | some (.n v) => v
  | _ => 0

def hvalTime : Option HVal → BrowserQuery.Time
  | some (.t v) => v
  | _ => BrowserQuery.timeZero

structure Cookie where
  name : String
  value : String
deriving DecidableEq

structure PageState where
  pageID : String
  url : String
  title : String
deriving DecidableEq

structure SessionState where
  sessionID : String
  sessionName : String
  agentID : String
  processPort : Nat
  contextID : String
  createdAt : BrowserQuery.Time
  lastActivity : BrowserQuery.Time
  status : String
  cookies : List Cookie
  localStorage : List (String × String)
  pages : List PageState
deriving DecidableEq

structure RedisState where
  hashes : List (String × List (String × HVal))
  sets : List (String × List String)
  pageBlobs : List (String × List PageState)
  cookieBlobs : List (String × List Cookie)
  localBlobs : List (String × List (String × String))
  expireAt : List (String × Nat)
deriving DecidableEq

def emptyRedis : RedisState :=
  { hashes := [], sets := [], pageBlobs := [], cookieBlobs := [],
    localBlobs := [], expireAt := [] }

def hgetall (r : RedisState) (key : String) : List (String × HVal) :=
  (alGet r.hashes key).getD []

def hsetFields (r : RedisState) (key : String) (fields : List (String × HVal)) :
    RedisState :=
  { r with hashes :=
      alSet r.hashes key (fields.foldl (fun h kv => alSet h kv.1 kv.2) (hgetall r key)) }

def hget (r : RedisState) (key field : String) : Option HVal :=
  alGet (hgetall r key) field

def hexists (r : RedisState) (key field : String) : Bool :=
  alHas (hgetall r key) field

def hdel (r : RedisState) (key field : String) : RedisState :=
  { r with hashes := alSet r.hashes key (alDel (hgetall r key) field) }

def smembers (r : RedisState) (key : String) : List String :=
  (alGet r.sets key).getD []

def sadd (r : RedisState) (key member : String) : RedisState :=
  let cur := smembers r key
  { r with sets := alSet r.sets key (if member ∈ cur then cur else cur ++ [member]) }

def srem (r : RedisState) (key member : String) : RedisState :=
  { r with sets := alSet r.sets key ((smembers r key).filter (fun x => x ≠ member)) }

def scard (r : RedisState) (key : String) : Nat :=
  (smembers r key).length

def expire (r : RedisState) (key : String) (deadline : Nat) : RedisState :=
  { r with expireAt := alSet r.expireAt key deadline }

def delKey (r : RedisState) (key : String) : RedisState :=
  { r with hashes := alDel r.hashes key, pageBlobs := alDel r.pageBlobs key,
           cookieBlobs := alDel r.cookieBlobs key, localBlobs := alDel r.localBlobs key,
           expireAt := alDel r.expireAt key }

def sessionKey (sessionID : String) : String := "session:" ++ sessionID

def agentSetKey (agentID : String) : String := "agent:" ++ agentID ++ ":sessions"

def namesKey (agentID : String) : String := "agent:" ++ agentID ++ ":session_names"

def pagesKey (sessionID : String) : String := "session:" ++ sessionID ++ ":pages"

def cookiesKey (sessionID : String) : String := "session:" ++ sessionID ++ ":cookies"

def localKey (sessionID : String) : String := "session:" ++ sessionID ++ ":localStorage"

/-- CheckSessionNameExists: HEXISTS on the per-agent name hash. -/
def CheckSessionNameExists (r : RedisState) (agentID sessionName : String) : Bool :=
  hexists r (namesKey agentID) sessionName

/-- ReserveSessionName: check-then-set of name → id, plus a TTL refresh of
the name hash.  On conflict nothing is written. -/
def ReserveSessionName (ttl now : Nat) (r : RedisState)
    (agentID sessionName sessionID : String) : Except String Unit × RedisState :=
  if CheckSessionNameExists r agentID sessionName then
    (.error ("session name '" ++ sessionName ++ "' already exists for agent '" ++
      agentID ++ "'"), r)
  else
    (.ok (), expire (hsetFields r (namesKey agentID) [(sessionName, .s sessionID)])
      (namesKey agentID) (now + ttl))

/-- ReleaseSessionName: HDEL of the name mapping; a no-op on blank inputs. -/
def ReleaseSessionName (r : RedisState) (agentID sessionName : String) : RedisState :=
  if sessionName = "" ∨ agentID = "" then r
  else hdel r (namesKey agentID) sessionName

/-- GetSessionByName: name → id lookup in the per-agent name hash. -/
def GetSessionByName (r : RedisState) (agentID sessionName : String) : Option String :=
  match hget r (namesKey agentID) sessionName with
  | some (.s v) => some v
  | _ => none

/-- CountAgentSessions: SCARD of the per-agent session set. -/
def CountAgentSessions (r : RedisState) (agentID : String) : Nat :=
  scard r (agentSetKey agentID)

/-- SaveSession, translated field by field: the stored hash carries
session_id, agent_id, process_port, context_id, created_at, last_activity
and status — the source does not put session_name among the fields.  Then
TTL, the active set, the agent set, the name reservation (logged on
failure), and the non-empty satellites. -/
def SaveSession (ttl now : Nat) (r : RedisState) (state : SessionState) : RedisState :=
  let key := sessionKey state.sessionID
  let r1 := hsetFields r key
    [("session_id", .s state.sessionID),
     ("agent_id", .s state.agentID),
     ("process_port", .n state.processPort),
     ("context_id", .s state.contextID),
     ("created_at", .t state.createdAt),
     ("last_activity", .t state.lastActivity),
     ("status", .s state.status)]
  let r2 := expire r1 key (now + ttl)
  let r3 := sadd r2 "active:sessions" state.sessionID
  let r4 :=
    if state.agentID ≠ "" then
      let ra := sadd r3 (agentSetKey state.agentID) state.sessionID
      (ReserveSessionName ttl now ra state.agentID state.sessionName state.sessionID).2
    else r3
  let r5 :=
    if state.cookies ≠ [] then
      expire { r4 with cookieBlobs := alSet r4.cookieBlobs (cookiesKey state.sessionID) state.cookies }
        (cookiesKey state.sessionID) (now + ttl)
    else r4
  let r6 :=
    if state.localStorage ≠ [] then
      expire { r5 with localBlobs := alSet r5.localBlobs (localKey state.sessionID) state.localStorage }
        (localKey state.sessionID) (now + ttl)
    else r5
  if state.pages ≠ [] then
    expire { r6 with pageBlobs := alSet r6.pageBlobs (pagesKey state.sessionID) state.pages }
      (pagesKey state.sessionID) (now + ttl)
  else r6

/-- GetSession: HGETALL plus the satellites.  As in the source, the parsed
state has no session_name field read back (it is left at its zero value),
and a missing port or timestamp parses to the zero value. -/
def GetSession (r : RedisState) (sessionID : String) : Option SessionState :=
  let key := sessionKey sessionID
  let data := hgetall r key
  if data = [] then none
  else some
    { sessionID := hvalStr (alGet data "session_id"),
      sessionName := "",
      agentID := hvalStr (alGet data "agent_id"),
      processPort := hvalNat (alGet data "process_port"),
      contextID := hvalStr (alGet data "context_id"),
      createdAt := hvalTime (alGet data "created_at"),
      lastActivity := hvalTime (alGet data "last_activity"),
      status := hvalStr (alGet data "status"),
      cookies := (alGet r.cookieBlobs (cookiesKey sessionID)).getD [],
      localStorage := (alGet r.localBlobs (localKey sessionID)).getD [],
      pages := (alGet r.pageBlobs (pagesKey sessionID)).getD [] }

/-- DeleteSession: read the hash to learn agent_id and session_name, release
the name when both are non-blank, drop agent-set membership, then delete the
hash, the satellites and the active-set membership. -/
def DeleteSession (r : RedisState) (sessionID : String) : RedisState :=
  let key := sessionKey sessionID
  let data := hgetall r key
  let r1 :=
    if data ≠ [] then
      let agentID := hvalStr (alGet data "agent_id")
      let sessionName := hvalStr (alGet data "session_name")
      let ra := if agentID ≠ "" ∧ sessionName ≠ "" then
          ReleaseSessionName r agentID sessionName
        else r
      if agentID ≠ "" then srem ra (agentSetKey agentID) sessionID else ra
    else r
  let r2 := delKey r1 key
  let r3 := delKey (delKey (delKey r2 (cookiesKey sessionID)) (localKey sessionID))
    (pagesKey sessionID)
  srem r3 "active:sessions" sessionID

/-- UpdateLastActivity: HSET of last_activity plus a TTL refresh. -/
def UpdateLastActivity (ttl : Nat) (now : BrowserQuery.Time) (r : RedisState)
    (sessionID : String) : RedisState :=
  let key := sessionKey sessionID
  expire (hsetFields r key [("last_activity", .t now)]) key (now.instant + ttl)

/-- RenameSession: conflict check, release of the old mapping, reservation
of the new one, and an update of the session_name hash field. -/
def RenameSession (ttl now : Nat) (r : RedisState)
    (sessionID agentID oldName newName : String) : Except String Unit × RedisState :=
  if CheckSessionNameExists r agentID newName then
    (.error ("session name '" ++ newName ++ "' already exists"), r)
  else
    let r1 := ReleaseSessionName r agentID oldName
    match ReserveSessionName ttl now r1 agentID newName sessionID with
    | (.error e, r2) => (.error e, r2)
    | (.ok _, r2) =>
        (.ok (), hsetFields r2 (sessionKey sessionID) [("session_name", .s newName)])

end storage

/-! Session registry and per-session operations (internal/session).  Browser
round trips (client connect, context and target management, target-scoped
commands) are external effects: their outcomes come from an oracle, and every
attempted browser-side call is recorded in an event trace. -/

namespace session

def MaxSessionsPerAgent : Nat := 10
def MaxTotalSessions : Nat := 100

def errSessionLimitReached : String := "agent session limit reached"
def errSessionNameConflict : String := "session name already exists"

structure ManagerState where
  sessions : List (String × Session)
  cdpClients : List Nat
deriving DecidableEq

structure Sys where
  mgr : ManagerState
  repo : Option storage.RedisState
deriving DecidableEq

inductive Event
  | gotClient (port : Nat)
  | createdContext (port : Nat)
  | createdTarget (url ctx : String)
  | sentToTarget (target method : String)
  | closedTarget (target : String)
  | disposedContext (ctx : String)
deriving DecidableEq

structure CdpOracle where
  getClientOk : Nat → Bool
  createContext : Nat → Except String String
  createTarget : String → String → Except String String
  closeTarget : String → Except String Unit
  disposeContext : String → Except String Unit
  sendToTarget : String → String → Except String String

/-- Manager.GetSession: read-locked map lookup. -/
def GetSession (m : ManagerState) (sessionID : String) : Except String Session :=
  match alGet m.sessions sessionID with
  | none => .error ("session not found: " ++ sessionID)
  | some s => .ok s

def updSession (m : ManagerState) (sessionID : String) (s : Session) : ManagerState :=
  { m with sessions := alSet m.sessions sessionID s }

/-- Session.RemovePage's slice surgery: swap the found entry with the last
element and truncate. -/
def removePageSwap (l : List String) (p : String) : List String :=
  match l.findIdx? (fun x => x = p) with
  | none => l
  | some i => (l.set i ((l.getLast?).getD "")).dropLast

/-- Manager.GetOrCreateCDPClient: reuse the cached client for the port, else
discover the WebSocket URL and connect (failures of either collapse into the
error case of the oracle). -/
def GetOrCreateCDPClient (m : ManagerState) (cdp : CdpOracle) (port : Nat) :
    Except String ManagerState :=
  if port ∈ m.cdpClients then .ok m
  else if cdp.getClientOk port then .ok { m with cdpClients := port :: m.cdpClients }
  else .error "failed to connect to CDP client"

/-- Manager.Navigate: session lookup (no page check), create a target in the
session's context, append the page id (AddPage also stamps activity). -/
def Navigate (sys : Sys) (cdp : CdpOracle) (sessionID url : String) (now : Time) :
    Except String String × Sys × List Event :=
  match GetSession sys.mgr sessionID with
  | .error e => (.error ("failed to get session: " ++ e), sys, [])
  | .ok s =>
      match cdp.createTarget url s.contextID with
      | .error e => (.error ("failed to create target: " ++ e), sys,
          [.createdTarget url s.contextID])
      | .ok pageID =>
          let s1 : Session := { s with pageIDs := s.pageIDs ++ [pageID], lastActivity := now }
          (.ok pageID, { sys with mgr := updSession sys.mgr sessionID s1 },
            [.createdTarget url s.contextID])

/-- Manager.CaptureScreenshot: lookup, page-membership check, one
target-scoped command, then the activity stamp. -/
def CaptureScreenshot (sys : Sys) (cdp : CdpOracle) (sessionID pageID : String)
    (now : Time) : Except String String × Sys × List Event :=
  match GetSession sys.mgr sessionID with
  | .error e => (.error ("failed to get session: " ++ e), sys, [])
  | .ok s =>
      if pageID ∈ s.pageIDs then
        match cdp.sendToTarget pageID "Page.captureScreenshot" with
        | .error e => (.error ("failed to capture screenshot: " ++ e), sys,
            [.sentToTarget pageID "Page.captureScreenshot"])
        | .ok data =>
            (.ok data, { sys with mgr := updSession sys.mgr sessionID { s with lastActivity := now } },
              [.sentToTarget pageID "Page.captureScreenshot"])
      else (.error ("page not found in session: " ++ pageID), sys, [])

/-- Manager.ExecuteJavascript: same shape around Runtime.evaluate (a script
exception surfaces on the oracle's error side). -/
def ExecuteJavascript (sys : Sys) (cdp : CdpOracle) (sessionID pageID : String)
    (now : Time) : Except String String × Sys × List Event :=
  match GetSession sys.mgr sessionID with
  | .error e => (.error ("failed to get session: " ++ e), sys, [])
  | .ok s =>
      if pageID ∈ s.pageIDs then
        match cdp.sendToTarget pageID "Runtime.evaluate" with
        | .error e => (.error ("failed to execute javascript: " ++ e), sys,
            [.sentToTarget pageID "Runtime.evaluate"])
        | .ok v =>
            (.ok v, { sys with mgr := updSession sys.mgr sessionID { s with lastActivity := now } },
              [.sentToTarget pageID "Runtime.evaluate"])
      else (.error ("page not found in session: " ++ pageID), sys, [])

/-- Manager.GetPageContent: lookup, page check, DOM.getDocument then
DOM.getOuterHTML, activity stamp. -/
def GetPageContent (sys : Sys) (cdp : CdpOracle) (sessionID pageID : String)
    (now : Time) : Except String String × Sys × List Event :=
  match GetSession sys.mgr sessionID with
  | .error e => (.error ("failed to get session: " ++ e), sys, [])
  | .ok s =>
      if pageID ∈ s.pageIDs then
        match cdp.sendToTarget pageID "DOM.getDocument" with
        | .error e => (.error ("failed to get page content: failed to get document: " ++ e),
            sys, [.sentToTarget pageID "DOM.getDocument"])
        | .ok _ =>
            match cdp.sendToTarget pageID "DOM.getOuterHTML" with
            | .error e => (.error ("failed to get page content: failed to get outer HTML: " ++ e),
                sys, [.sentToTarget pageID "DOM.getDocument", .sentToTarget pageID "DOM.getOuterHTML"])
            | .ok html =>
                (.ok html, { sys with mgr := updSession sys.mgr sessionID { s with lastActivity := now } },
                  [.sentToTarget pageID "DOM.getDocument", .sentToTarget pageID "DOM.getOuterHTML"])
      else (.error ("page not found in session: " ++ pageID), sys, [])

/-- Manager.GetAccessibilityTree: lookup, page check,
Accessibility.getFullAXTree (the pure tree projection is abstracted into the
oracle's payload), activity stamp. -/
def GetAccessibilityTree (sys : Sys) (cdp : CdpOracle) (sessionID pageID : String)
    (now : Time) : Except String String × Sys × List Event :=
  match GetSession sys.mgr sessionID with
  | .error e => (.error ("failed to get session: " ++ e), sys, [])
  | .ok s =>
      if pageID ∈ s.pageIDs then
        match cdp.sendToTarget pageID "Accessibility.getFullAXTree" with
        | .error e => (.error ("failed to get accessibility tree: " ++ e), sys,
            [.sentToTarget pageID "Accessibility.getFullAXTree"])
        | .ok raw =>
            (.ok raw, { sys with mgr := updSession sys.mgr sessionID { s with lastActivity := now } },
              [.sentToTarget pageID "Accessibility.getFullAXTree"])
      else (.error ("page not found in session: " ++ pageID), sys, [])

/-- Manager.ClosePage: lookup, page check, Target.closeTarget, then
RemovePage (which also stamps activity). -/
def ClosePage (sys : Sys) (cdp : CdpOracle) (sessionID pageID : String) (now : Time) :
    Except String Unit × Sys × List Event :=
  match GetSession sys.mgr sessionID with
  | .error e => (.error ("failed to get session: " ++ e), sys, [])
  | .ok s =>
      if pageID ∈ s.pageIDs then
        match cdp.closeTarget pageID with
        | .error e => (.error ("failed to close page: " ++ e), sys, [.closedTarget pageID])
        | .ok _ =>
            let s1 : Session :=
              { s with pageIDs := removePageSwap s.pageIDs pageID, lastActivity := now }
            (.ok (), { sys with mgr := updSession sys.mgr sessionID s1 }, [.closedTarget pageID])
      else (.error ("page not found in session: " ++ pageID), sys, [])

/-- Manager.DestroySession: close every tracked page (continuing past
failures), dispose the browser context (a failure here propagates and aborts
the rest), delete the durable entry, mark closed, remove from the map. -/
def DestroySession (sys : Sys) (cdp : CdpOracle) (sessionID : String) :
    Except String Unit × Sys × List Event :=
  match alGet sys.mgr.sessions sessionID with
  | none => (.error ("session not found: " ++ sessionID), sys, [])
  | some s =>
      let closeTrace := s.pageIDs.map Event.closedTarget
      match cdp.disposeContext s.contextID with
      | .error e => (.error ("failed to dispose browser context: " ++ e), sys,
          closeTrace ++ [.disposedContext s.contextID])
      | .ok _ =>
          let repo1 := sys.repo.map (fun r => storage.DeleteSession r sessionID)
          let mgr1 : ManagerState :=
            { sys.mgr with sessions := alDel sys.mgr.sessions sessionID }
          (.ok (), { mgr := mgr1, repo := repo1 },
            closeTrace ++ [.disposedContext s.contextID])

/-- Manager.checkSessionLimits: the global cap from the in-memory map; the
per-agent cap from the durable index when present, where a transient index
error (countErr) is logged and does not block. -/
def checkSessionLimits (sys : Sys) (agentID : String) (countErr : Bool) :
    Except String Unit :=
  if MaxTotalSessions ≤ sys.mgr.sessions.length then
    .error ("global session limit reached (" ++ toString MaxTotalSessions ++ ")")
  else
    match sys.repo with
    | none => .ok ()
    | some r =>
        if countErr then .ok ()
        else if MaxSessionsPerAgent ≤ storage.CountAgentSessions r agentID then
          .error (errSessionLimitReached ++ ": agent has " ++
            toString (storage.CountAgentSessions r agentID) ++ " sessions (max " ++
            toString MaxSessionsPerAgent ++ ")")
        else .ok ()

/-- Manager.sessionToState. -/
def sessionToState (s : Session) : storage.SessionState :=
  { sessionID := s.id, sessionName := s.name, agentID := s.agentID,
    processPort := s.processPort, contextID := s.contextID,
    createdAt := s.createdAt, lastActivity := s.lastActivity, status := s.status,
    cookies := [], localStorage := [],
    pages := s.pageIDs.map (fun p => { pageID := p, url := "", title := "" }) }

/-- The browser-side tail of CreateSessionWithName, after the quota and name
checks passed: mint the id, obtain the client, create the context, build and
install the record, persist (a persistence failure would only be logged). -/
def createSessionCore (sys : Sys) (cdp : CdpOracle) (agentID sessionName : String)
    (port : Nat) (now : Time) (ttl : Nat) (randomBytes : List Nat) :
    Except String Session × Sys × List Event :=
  let sessionID := generateSessionID randomBytes
  match GetOrCreateCDPClient sys.mgr cdp port with
  | .error e => (.error ("failed to get or create CDP client: " ++ e), sys, [.gotClient port])
  | .ok m1 =>
      match cdp.createContext port with
      | .error e => (.error ("failed to create browser context: " ++ e),
          { sys with mgr := m1 }, [.gotClient port, .createdContext port])
      | .ok contextID =>
          let s0 : Session :=
            { id := sessionID, name := sessionName, agentID := agentID,
              processPort := port, contextID := contextID, pageIDs := [],
              createdAt := now, lastActivity := now, status := SessionActive }
          let s1 := if s0.name = "" then { s0 with name := generateSessionName s0 } else s0
          let m2 := updSession m1 sessionID s1
          let repo1 := sys.repo.map
            (fun r => storage.SaveSession ttl now.instant r (sessionToState s1))
          (.ok s1, { mgr := m2, repo := repo1 }, [.gotClient port, .createdContext port])

/-- Manager.CreateSessionWithName: agent id required; quota checks; then the
name-conflict check against the durable index (an index error here fails the
call); only then any browser-side work. -/
def CreateSessionWithName (sys : Sys) (cdp : CdpOracle) (agentID sessionName : String)
    (port : Nat) (now : Time) (ttl : Nat) (randomBytes : List Nat)
    (countErr nameCheckErr : Bool) : Except String Session × Sys × List Event :=
  if agentID = "" then (.error "agent_id is required", sys, [])
  else
    match checkSessionLimits sys agentID countErr with
    | .error e => (.error e, sys, [])
    | .ok _ =>
        match sys.repo with
        | some r =>
            if sessionName ≠ "" then
              if nameCheckErr then (.error "failed to check session name", sys, [])
              else if storage.CheckSessionNameExists r agentID sessionName then
                (.error errSessionNameConflict, sys, [])
              else createSessionCore sys cdp agentID sessionName port now ttl randomBytes
            else createSessionCore sys cdp agentID sessionName port now ttl randomBytes
        | none => createSessionCore sys cdp agentID sessionName port now ttl randomBytes

/-- Manager.resurrectSession: reconnect a client for the stored port, rebuild
the record from the durable metadata (created-at and context handle kept,
last-activity fresh, page ids reinstalled), install it, refresh the TTL. -/
def resurrectSession (sys : Sys) (cdp : CdpOracle) (r : storage.RedisState)
    (state : storage.SessionState) (now : Time) (ttl : Nat) :
    Except String Session × Sys × List Event :=
  match GetOrCreateCDPClient sys.mgr cdp state.processPort with
  | .error e => (.error ("failed to reconnect to browser: " ++ e), sys,
      [.gotClient state.processPort])
  | .ok m1 =>
      let s : Session :=
        { id := state.sessionID, name := state.sessionName, agentID := state.agentID,
          processPort := state.processPort, contextID := state.contextID,
          pageIDs := state.pages.map (fun p => p.pageID),
          createdAt := state.createdAt, lastActivity := now, status := state.status }
      let m2 := updSession m1 s.id s
      let r1 := storage.UpdateLastActivity ttl now r s.id
      (.ok s, { mgr := m2, repo := some r1 }, [.gotClient state.processPort])

/-- Manager.ResumeSessionByName: resolve the id through the name index; a
resident session gets a fresh activity stamp and TTL refresh; otherwise the
durable metadata is fetched and the session resurrected. -/
def ResumeSessionByName (sys : Sys) (cdp : CdpOracle) (agentID sessionName : String)
    (now : Time) (ttl : Nat) : Except String Session × Sys × List Event :=
  if agentID = "" ∨ sessionName = "" then
    (.error "agent_id and session_name are required", sys, [])
  else
    match sys.repo with
    | none => (.error "Redis not configured", sys, [])
    | some r =>
        match storage.GetSessionByName r agentID sessionName with
        | none => (.error ("session not found: no session with name " ++ sessionName), sys, [])
        | some sessionID =>
            match alGet sys.mgr.sessions sessionID with
            | some s =>
                let s1 : Session := { s with lastActivity := now }
                let r1 := storage.UpdateLastActivity ttl now r sessionID
                (.ok s1, { mgr := updSession sys.mgr sessionID s1, repo := some r1 }, [])
            | none =>
                match storage.GetSession r sessionID with
                | none => (.error ("failed to load session from Redis: session not found: " ++
                    sessionID), sys, [])
                | some state =>
                    match resurrectSession sys cdp r state now ttl with
                    | (.error e, sys1, tr) => (.error ("failed to resurrect session: " ++ e), sys1, tr)
                    | (.ok s, sys1, tr) => (.ok s, sys1, tr)

end session

/-! Supporting lemmas. -/

theorem getD_mem_of_mem {l : List Char} {d : Char} (n : Nat) (hd : d ∈ l) :
    l.getD n d ∈ l := by
  by_cases h : n < l.length
  · rw [List.getD_eq_getElem l d h]
    exact List.getElem_mem h
  · rw [List.getD_eq_default l d (Nat.le_of_not_lt h)]
    exact hd

theorem b64char_mem (n : Nat) : b64char n ∈ b64urlChars :=
  getD_mem_of_mem n (by decide)

/-- Every encoder output splits into an alphabet body followed by padding,
with a non-empty body whenever some byte went in. -/
theorem base64urlEncode_split (l : List Nat) :
    ∃ body pad, base64urlEncode l = body ++ pad ∧
      (∀ c ∈ body, c ∈ b64urlChars) ∧ (∀ c ∈ pad, c = '=') ∧ (l ≠ [] → body ≠ []) := by
  induction l using base64urlEncode.induct with
  | case1 =>
      exact ⟨[], [], by simp [base64urlEncode], by simp, by simp, by simp⟩
  | case2 a =>
      refine ⟨[b64char (a / 4), b64char (a % 4 * 16)], ['=', '='],
        by simp [base64urlEncode], ?_, by simp, by simp⟩
      intro c hc
      simp only [List.mem_cons, List.not_mem_nil, or_false] at hc
      rcases hc with rfl | rfl
      · exact b64char_mem _
      · exact b64char_mem _
  | case3 a b =>
      refine ⟨[b64char (a / 4), b64char (a % 4 * 16 + b / 16), b64char (b % 16 * 4)], ['='],
        by simp [base64urlEncode], ?_, by simp, by simp⟩
      intro c hc
      simp only [List.mem_cons, List.not_mem_nil, or_false] at hc
      rcases hc with rfl | rfl | rfl
      · exact b64char_mem _
      · exact b64char_mem _
      · exact b64char_mem _
  | case4 a b c rest ih =>
      obtain ⟨body, pad, henc, hbody, hpad, _⟩ := ih
      refine ⟨b64char (a / 4) :: b64char (a % 4 * 16 + b / 16) ::
        b64char (b % 16 * 4 + c / 64) :: b64char (c % 64) :: body, pad, ?_, ?_, hpad, by simp⟩
      · simp [base64urlEncode, henc]
      · intro x hx
        simp only [List.mem_cons] at hx
        rcases hx with rfl | rfl | rfl | rfl | h
        · exact b64char_mem _
        · exact b64char_mem _
        · exact b64char_mem _
        · exact b64char_mem _
        · exact hbody x h

/-- C8: a generated session id is the ASCII prefix sess_ followed by the
URL-safe base64 encoding of the 16 random bytes, so it matches
sess_[A-Za-z0-9_-]+=* and has total length 29; and the auto-generated name
is session-YYYY-MM-DD-XXXXXXXX where the date is the creation date and the
8 characters are exactly the first 8 characters of the id body after the
prefix. -/
theorem C8_session_id_and_autoname
    (b0 b1 b2 b3 b4 b5 b6 b7 b8 b9 b10 b11 b12 b13 b14 b15 : Nat)
    (agent ctx st : String) (port ti lti : Nat) (pages : List String) (d ld : Date) :
    (generateSessionID [b0,b1,b2,b3,b4,b5,b6,b7,b8,b9,b10,b11,b12,b13,b14,b15]).length = 29 ∧
    matchesSessIdPattern (generateSessionID [b0,b1,b2,b3,b4,b5,b6,b7,b8,b9,b10,b11,b12,b13,b14,b15]) ∧
    ((generateSessionID [b0,b1,b2,b3,b4,b5,b6,b7,b8,b9,b10,b11,b12,b13,b14,b15]).toList.drop 5).take 8
      = (base64urlEncode [b0,b1,b2,b3,b4,b5,b6,b7,b8,b9,b10,b11,b12,b13,b14,b15]).take 8 ∧
    (generateSessionName
      { id := generateSessionID [b0,b1,b2,b3,b4,b5,b6,b7,b8,b9,b10,b11,b12,b13,b14,b15],
        name := "", agentID := agent, processPort := port, contextID := ctx,
        pageIDs := pages, createdAt := { instant := ti, date := d },
        lastActivity := { instant := lti, date := ld }, status := st }).toList
      = "session-".toList ++ (formatDate d).toList ++ "-".toList ++
        (base64urlEncode [b0,b1,b2,b3,b4,b5,b6,b7,b8,b9,b10,b11,b12,b13,b14,b15]).take 8 := by
  refine ⟨?_, ?_, ?_, ?_⟩
  · simp [generateSessionID, base64urlEncode, String.length]
  · obtain ⟨body, pad, henc, hbody, hpad, hne⟩ :=
      base64urlEncode_split [b0,b1,b2,b3,b4,b5,b6,b7,b8,b9,b10,b11,b12,b13,b14,b15]
    refine ⟨body, pad, ?_, hne (by simp), hbody, hpad⟩
    simp [generateSessionID, String.toList, henc]
  · simp [generateSessionID, String.toList]
  · simp [generateSessionName, defaultSessionNameStem, generateSessionID, String.toList,
      String.data, formatDate]

/-! Concrete fixtures used by witnesses and counterexamples. -/

def demoSession : Session :=
  { id := "sess_x", name := "task", agentID := "a", processPort := 9222,
    contextID := "ctx-1", pageIDs := ["p1"], createdAt := timeZero,
    lastActivity := timeZero, status := SessionActive }

def demoSys : session.Sys :=
  { mgr := { sessions := [("sess_x", demoSession)], cdpClients := [9222] },
    repo := some storage.emptyRedis }

def demoOracle : session.CdpOracle :=
  { getClientOk := fun _ => true,
    createContext := fun _ => .ok "ctx-1",
    createTarget := fun u _ => .ok ("page-" ++ u),
    closeTarget := fun _ => .ok (),
    disposeContext := fun _ => .ok (),
    sendToTarget := fun _ _ => .ok "payload" }

def demoBadDispose : session.CdpOracle :=
  { demoOracle with disposeContext := fun _ => .error "boom" }

/-- C9: when the page id is not tracked by the session, every page-taking
operation fails with the page-not-found error, the registry and the durable
state are untouched, and no protocol command is attempted. -/
theorem C9_page_not_found_unchanged
    (sys : session.Sys) (cdp : session.CdpOracle) (sessionID pageID : String)
    (now : Time) (s : Session)
    (hs : alGet sys.mgr.sessions sessionID = some s)
    (hp : pageID ∉ s.pageIDs) :
    session.CaptureScreenshot sys cdp sessionID pageID now
      = (.error ("page not found in session: " ++ pageID), sys, []) ∧
    session.ExecuteJavascript sys cdp sessionID pageID now
      = (.error ("page not found in session: " ++ pageID), sys, []) ∧
    session.GetPageContent sys cdp sessionID pageID now
      = (.error ("page not found in session: " ++ pageID), sys, []) ∧
    session.GetAccessibilityTree sys cdp sessionID pageID now
      = (.error ("page not found in session: " ++ pageID), sys, []) ∧
    session.ClosePage sys cdp sessionID pageID now
      = (.error ("page not found in session: " ++ pageID), sys, []) := by
  refine ⟨?_, ?_, ?_, ?_, ?_⟩ <;>
    simp [session.CaptureScreenshot, session.ExecuteJavascript, session.GetPageContent,
      session.GetAccessibilityTree, session.ClosePage, session.GetSession, hs, hp]

/-- Witness for C9 at a concrete state: a session tracking page p1, asked
about page zz. -/
theorem C9_page_not_found_unchanged_witness :
    session.CaptureScreenshot demoSys demoOracle "sess_x" "zz" timeZero
      = (.error ("page not found in session: " ++ "zz"), demoSys, []) :=
  (C9_page_not_found_unchanged demoSys demoOracle "sess_x" "zz" timeZero demoSession
    (by decide) (by decide)).1

/-- C10: when disposing the browser context fails, DestroySession propagates
the error after having already attempted closeTarget on every tracked page,
and the destruction is abandoned: the registry map, the session record and
the durable state are all unchanged, so a later lookup still returns the
session with status active. -/
theorem C10_dispose_failure_abandons_destroy
    (sys : session.Sys) (cdp : session.CdpOracle) (sessionID : String)
    (s : Session) (e : String)
    (hs : alGet sys.mgr.sessions sessionID = some s)
    (hd : cdp.disposeContext s.contextID = .error e)
    (hst : s.status = SessionActive) :
    session.DestroySession sys cdp sessionID
      = (.error ("failed to dispose browser context: " ++ e), sys,
          s.pageIDs.map session.Event.closedTarget ++ [session.Event.disposedContext s.contextID]) ∧
    session.GetSession ((session.DestroySession sys cdp sessionID).2.1).mgr sessionID = .ok s ∧
    s.status = SessionActive := by
  have hmain : session.DestroySession sys cdp sessionID
      = (.error ("failed to dispose browser context: " ++ e), sys,
          s.pageIDs.map session.Event.closedTarget ++ [session.Event.disposedContext s.contextID]) := by
    simp [session.DestroySession, hs, hd]
  refine ⟨hmain, ?_, hst⟩
  rw [hmain]
  simp [session.GetSession, hs]

/-- Witness for C10 at a concrete state: the context-dispose oracle fails
with "boom" on the demo session. -/
theorem C10_dispose_failure_abandons_destroy_witness :
    session.DestroySession demoSys demoBadDispose "sess_x"
      = (.error ("failed to dispose browser context: " ++ "boom"), demoSys,
          [session.Event.closedTarget "p1", session.Event.disposedContext "ctx-1"]) :=
  (C10_dispose_failure_abandons_destroy demoSys demoBadDispose "sess_x" demoSession "boom"
    (by decide) (by rfl) (by decide)).1

/-- C6: quota and name-conflict failures happen before any browser-side
work: the result is the corresponding error, the system state (registry map
and durable index) is returned unchanged, and the trace of attempted
browser calls is empty — no client obtained, no context created.  A
transient index error during the per-agent count (countErr) does not block
the limit check. -/
theorem C6_preflight_checks
    (sys : session.Sys) (cdp : session.CdpOracle) (agentID sessionName : String)
    (port : Nat) (now : Time) (ttl : Nat) (bytes : List Nat) (nameCheckErr : Bool) :
    (∀ countErr : Bool, agentID ≠ "" → session.MaxTotalSessions ≤ sys.mgr.sessions.length →
        session.CreateSessionWithName sys cdp agentID sessionName port now ttl bytes countErr nameCheckErr
          = (.error ("global session limit reached (" ++ toString session.MaxTotalSessions ++ ")"),
             sys, [])) ∧
    (∀ r, sys.repo = some r → agentID ≠ "" →
        sys.mgr.sessions.length < session.MaxTotalSessions →
        session.MaxSessionsPerAgent ≤ storage.CountAgentSessions r agentID →
        session.CreateSessionWithName sys cdp agentID sessionName port now ttl bytes false nameCheckErr
          = (.error (session.errSessionLimitReached ++ ": agent has " ++
              toString (storage.CountAgentSessions r agentID) ++ " sessions (max " ++
              toString session.MaxSessionsPerAgent ++ ")"), sys, [])) ∧
    (∀ r, sys.repo = some r → agentID ≠ "" → sessionName ≠ "" →
        session.checkSessionLimits sys agentID false = .ok () →
        storage.CheckSessionNameExists r agentID sessionName = true →
        session.CreateSessionWithName sys cdp agentID sessionName port now ttl bytes false false
          = (.error session.errSessionNameConflict, sys, [])) ∧
    (∀ countErr : Bool, countErr = true → sys.mgr.sessions.length < session.MaxTotalSessions →
        session.checkSessionLimits sys agentID countErr = .ok ()) := by
  refine ⟨?_, ?_, ?_, ?_⟩
  · intro countErr ha hlen
    simp [session.CreateSessionWithName, session.checkSessionLimits, ha, hlen]
  · intro r hr ha hlen hcount
    simp [session.CreateSessionWithName, session.checkSessionLimits, hr, ha,
      Nat.not_le.mpr hlen, hcount]
  · intro r hr ha hn hok hex
    simp [session.CreateSessionWithName, hr, ha, hn, hok, hex]
  · intro countErr hce hlen
    cases hsr : sys.repo with
    | none => simp [session.checkSessionLimits, hsr, Nat.not_le.mpr hlen]
    | some r => simp [session.checkSessionLimits, hsr, hce, Nat.not_le.mpr hlen]

def fullSys : session.Sys :=
  { mgr := { sessions := (List.range 100).map (fun i => (toString i, demoSession)),
             cdpClients := [] },
    repo := some storage.emptyRedis }

def repoTenSessions : storage.RedisState :=
  { storage.emptyRedis with
      sets := [("agent:a:sessions", ["s0","s1","s2","s3","s4","s5","s6","s7","s8","s9"])] }

def tenSys : session.Sys :=
  { mgr := { sessions := [], cdpClients := [] }, repo := some repoTenSessions }

def repoNameTaken : storage.RedisState :=
  { storage.emptyRedis with
      hashes := [("agent:a:session_names", [("task", .s "sess_old")])] }

def takenSys : session.Sys :=
  { mgr := { sessions := [], cdpClients := [] }, repo := some repoNameTaken }

/-- Witness for C6 at concrete states: a full registry, an agent at the
per-agent cap, a taken name, and a transient count error. -/
theorem C6_preflight_checks_witness :
    session.CreateSessionWithName fullSys demoOracle "a" "task" 9222 timeZero 1800 [] false false
      = (.error ("global session limit reached (" ++ toString session.MaxTotalSessions ++ ")"),
         fullSys, []) ∧
    session.CreateSessionWithName tenSys demoOracle "a" "task" 9222 timeZero 1800 [] false false
      = (.error (session.errSessionLimitReached ++ ": agent has " ++
          toString (storage.CountAgentSessions repoTenSessions "a") ++ " sessions (max " ++
          toString session.MaxSessionsPerAgent ++ ")"), tenSys, []) ∧
    session.CreateSessionWithName takenSys demoOracle "a" "task" 9222 timeZero 1800 [] false false
      = (.error session.errSessionNameConflict, takenSys, []) ∧
    session.checkSessionLimits demoSys "a" true = .ok () :=
  ⟨(C6_preflight_checks fullSys demoOracle "a" "task" 9222 timeZero 1800 [] false).1 false
      (by decide) (by decide),
   (C6_preflight_checks tenSys demoOracle "a" "task" 9222 timeZero 1800 [] false).2.1
      repoTenSessions (by rfl) (by decide) (by decide) (by decide),
   (C6_preflight_checks takenSys demoOracle "a" "task" 9222 timeZero 1800 [] false).2.2.1
      repoNameTaken (by rfl) (by decide) (by decide) (by rfl) (by decide),
   (C6_preflight_checks demoSys demoOracle "a" "task" 9222 timeZero 1800 [] false).2.2.2 true
      (by rfl) (by decide)⟩

def repoWithExpiry : storage.RedisState :=
  { storage.emptyRedis with
      hashes := [("session:sess_x",
        [("session_id", .s "sess_x"), ("agent_id", .s "a"),
         ("process_port", .n 9222), ("context_id", .s "ctx-1"),
         ("created_at", .t timeZero), ("last_activity", .t timeZero),
         ("status", .s "active")])],
      expireAt := [("session:sess_x", 30)] }

def c3Sys : session.Sys :=
  { mgr := { sessions := [("sess_x", demoSession)], cdpClients := [9222] },
    repo := some repoWithExpiry }

def c3Now : Time := { instant := 100, date := { year := 2026, month := 1, day := 2 } }

/-- C3 counterexample: a successful screenshot leaves the durable state — in
particular the expiry deadline of the session key — exactly as it was, so
the claimed best-effort TTL refresh does not happen. -/
theorem C3_counterexample_no_ttl_refresh :
    (session.CaptureScreenshot c3Sys demoOracle "sess_x" "p1" c3Now).1 = .ok "payload" ∧
    (session.CaptureScreenshot c3Sys demoOracle "sess_x" "p1" c3Now).2.1.repo
      = some repoWithExpiry ∧
    alGet repoWithExpiry.expireAt "session:sess_x" = some 30 ∧
    30 ≠ c3Now.instant + 1800 := by
  refine ⟨by rfl, by rfl, by rfl, by decide⟩

/-- C3 as amended: every page-taking operation looks up the session, checks
page membership and fails with page-not-found otherwise; on success it
stamps last-activity in the in-memory record and leaves the durable index
untouched (no TTL refresh); navigate skips the page check, creates a
target, appends the returned page id and returns it. -/
theorem C3_per_session_operation_shape
    (sys : session.Sys) (cdp : session.CdpOracle) (sessionID pageID url : String)
    (now : Time) (s : Session)
    (hs : alGet sys.mgr.sessions sessionID = some s) :
    (pageID ∉ s.pageIDs →
        session.CaptureScreenshot sys cdp sessionID pageID now
          = (.error ("page not found in session: " ++ pageID), sys, [])) ∧
    (∀ data, pageID ∈ s.pageIDs → cdp.sendToTarget pageID "Page.captureScreenshot" = .ok data →
        session.CaptureScreenshot sys cdp sessionID pageID now
          = (.ok data,
             { sys with mgr := session.updSession sys.mgr sessionID ({ s with lastActivity := now }) },
             [.sentToTarget pageID "Page.captureScreenshot"])) ∧
    (∀ v, pageID ∈ s.pageIDs → cdp.sendToTarget pageID "Runtime.evaluate" = .ok v →
        session.ExecuteJavascript sys cdp sessionID pageID now
          = (.ok v,
             { sys with mgr := session.updSession sys.mgr sessionID ({ s with lastActivity := now }) },
             [.sentToTarget pageID "Runtime.evaluate"])) ∧
    (∀ doc html, pageID ∈ s.pageIDs → cdp.sendToTarget pageID "DOM.getDocument" = .ok doc →
        cdp.sendToTarget pageID "DOM.getOuterHTML" = .ok html →
        session.GetPageContent sys cdp sessionID pageID now
          = (.ok html,
             { sys with mgr := session.updSession sys.mgr sessionID ({ s with lastActivity := now }) },
             [.sentToTarget pageID "DOM.getDocument", .sentToTarget pageID "DOM.getOuterHTML"])) ∧
    (∀ raw, pageID ∈ s.pageIDs → cdp.sendToTarget pageID "Accessibility.getFullAXTree" = .ok raw →
        session.GetAccessibilityTree sys cdp sessionID pageID now
          = (.ok raw,
             { sys with mgr := session.updSession sys.mgr sessionID ({ s with lastActivity := now }) },
             [.sentToTarget pageID "Accessibility.getFullAXTree"])) ∧
    (pageID ∈ s.pageIDs → cdp.closeTarget pageID = .ok () →
        session.ClosePage sys cdp sessionID pageID now
          = (.ok (),
             { sys with mgr := session.updSession sys.mgr sessionID
                            ({ s with pageIDs := session.removePageSwap s.pageIDs pageID,
                                      lastActivity := now }) },
             [.closedTarget pageID])) ∧
    (∀ pid, cdp.createTarget url s.contextID = .ok pid →
        session.Navigate sys cdp sessionID url now
          = (.ok pid,
             { sys with mgr := session.updSession sys.mgr sessionID
                            ({ s with pageIDs := s.pageIDs ++ [pid], lastActivity := now }) },
             [.createdTarget url s.contextID])) := by
  refine ⟨?_, ?_, ?_, ?_, ?_, ?_, ?_⟩
  · intro hp
    simp [session.CaptureScreenshot, session.GetSession, hs, hp]
  · intro data hp hsend
    simp [session.CaptureScreenshot, session.GetSession, hs, hp, hsend]
  · intro v hp hsend
    simp [session.ExecuteJavascript, session.GetSession, hs, hp, hsend]
  · intro doc html hp h1 h2
    simp [session.GetPageContent, session.GetSession, hs, hp, h1, h2]
  · intro raw hp hsend
    simp [session.GetAccessibilityTree, session.GetSession, hs, hp, hsend]
  · intro hp hclose
    simp [session.ClosePage, session.GetSession, hs, hp, hclose]
  · intro pid hct
    simp [session.Navigate, session.GetSession, hs, hct]

/-- Witness for the amended C3 at a concrete state: one successful
screenshot, one successful navigate, one page-not-found failure. -/
theorem C3_per_session_operation_shape_witness :
    session.CaptureScreenshot demoSys demoOracle "sess_x" "p1" c3Now
      = (.ok "payload",
         { demoSys with mgr := session.updSession demoSys.mgr "sess_x"
                            ({ demoSession with lastActivity := c3Now }) },
         [.sentToTarget "p1" "Page.captureScreenshot"]) ∧
    session.Navigate demoSys demoOracle "sess_x" "u" c3Now
      = (.ok "page-u",
         { demoSys with mgr := session.updSession demoSys.mgr "sess_x"
                            ({ demoSession with pageIDs := demoSession.pageIDs ++ ["page-u"],
                                                lastActivity := c3Now }) },
         [.createdTarget "u" "ctx-1"]) ∧
    session.CaptureScreenshot demoSys demoOracle "sess_x" "zz" c3Now
      = (.error ("page not found in session: " ++ "zz"), demoSys, []) :=
  ⟨(C3_per_session_operation_shape demoSys demoOracle "sess_x" "p1" "u" c3Now demoSession
      (by decide)).2.1 "payload" (by decide) (by rfl),
   (C3_per_session_operation_shape demoSys demoOracle "sess_x" "p1" "u" c3Now demoSession
      (by decide)).2.2.2.2.2.2 "page-u" (by rfl),
   (C3_per_session_operation_shape demoSys demoOracle "sess_x" "zz" "u" c3Now demoSession
      (by decide)).1 (by decide)⟩

/-! A concrete creation/destruction/resume run used to exhibit the fate of
the session name in the durable index. -/

def seedBytes : List Nat := List.replicate 16 0
def seedID : String := generateSessionID seedBytes

def c14Sys0 : session.Sys :=
  { mgr := { sessions := [], cdpClients := [] }, repo := some storage.emptyRedis }

def c14Create : Except String Session × session.Sys × List session.Event :=
  session.CreateSessionWithName c14Sys0 demoOracle "a" "task" 9222 timeZero 1800 seedBytes false false

def c14Sys1 : session.Sys := c14Create.2.1

def c1After : Except String Unit × session.Sys × List session.Event :=
  session.DestroySession c14Sys1 demoOracle seedID

def c1Repo2 : storage.RedisState := (c1After.2.1.repo).getD storage.emptyRedis

/-- C1, evaluated at the failing input: create (agent a, name task), then
destroy.  The durable hash is deleted and the agent set no longer counts the
id, but the (agent, name) reservation survives — SaveSession never stored a
session_name field, so DeleteSession finds a blank name and skips the
release — and a new create with the same agent and name fails with the name
conflict instead of succeeding. -/
theorem C1_destroy_does_not_release_name :
    c14Create.1.toOption.map Session.name = some "task" ∧
    c1After.1 = .ok () ∧
    storage.hgetall c1Repo2 (storage.sessionKey seedID) = [] ∧
    storage.CountAgentSessions c1Repo2 "a" = 0 ∧
    storage.CheckSessionNameExists c1Repo2 "a" "task" = true ∧
    storage.GetSessionByName c1Repo2 "a" "task" = some seedID ∧
    (session.CreateSessionWithName c1After.2.1 demoOracle "a" "task" 9222 timeZero 1800
        seedBytes false false).1 = .error session.errSessionNameConflict := by
  refine ⟨by rfl, by rfl, by rfl, by rfl, by rfl, by rfl, by rfl⟩

def c4Resume : Except String Session × session.Sys × List session.Event :=
  session.ResumeSessionByName
    { mgr := { sessions := [], cdpClients := [] }, repo := c14Sys1.repo }
    demoOracle "a" "task" c3Now 1800

/-- C4, evaluated at the failing input: resume (agent a, name task) when the
session is not resident.  Resurrection rebuilds the record with created-at,
context handle and port preserved and a fresh last-activity, but the
returned record carries an empty session_name — SaveSession never persisted
the name and GetSession never parses it — while the in-memory resume path
does return the name that was used. -/
theorem C4_resurrect_returns_empty_name :
    c4Resume.1 = .ok
      { id := seedID, name := "", agentID := "a", processPort := 9222,
        contextID := "ctx-1", pageIDs := [], createdAt := timeZero,
        lastActivity := c3Now, status := "active" } ∧
    (match c4Resume.1 with | .ok s => s.name | .error _ => "") ≠ "task" ∧
    (session.ResumeSessionByName c14Sys1 demoOracle "a" "task" c3Now 1800).1.toOption.map
      Session.name = some "task" := by
  refine ⟨by rfl, by decide, by rfl⟩

/-! Pending-map hygiene for the protocol client.  clientWF is the client's
allocation invariant: every registered pending id was allocated, so it never
exceeds the current request counter. -/

def clientWF (st : cdp.ClientState) : Prop :=
  ∀ i ∈ st.pending, i ≤ st.requestID

theorem sendCommand_requestID (st : cdp.ClientState) (o : cdp.SendOutcome) :
    (cdp.SendCommand st o).2.requestID = st.requestID + 1 := by
  cases o <;> simp [cdp.SendCommand, cdp.handleMessage]

theorem sendCommand_closed (st : cdp.ClientState) (o : cdp.SendOutcome) :
    (cdp.SendCommand st o).2.closed = st.closed := by
  cases o <;> simp [cdp.SendCommand, cdp.handleMessage]

/-- After a send, the pending map is as before — except that a call cut off
by shutdown leaves its entry behind, to be dropped by Close. -/
theorem sendCommand_pending (st : cdp.ClientState) (o : cdp.SendOutcome) (hwf : clientWF st) :
    (cdp.SendCommand st o).2.pending =
      (if o = .clientClosed then (st.requestID + 1) :: st.pending else st.pending) := by
  have hne : st.requestID + 1 ∉ st.pending := by
    intro hmem
    have := hwf _ hmem
    omega
  cases o <;> simp [cdp.SendCommand, cdp.handleMessage, List.erase_cons_head, hne]

theorem sendCommand_wf (st : cdp.ClientState) (o : cdp.SendOutcome) (hwf : clientWF st) :
    clientWF (cdp.SendCommand st o).2 := by
  intro i hi
  rw [sendCommand_pending st o hwf] at hi
  rw [sendCommand_requestID]
  by_cases ho : o = .clientClosed
  · rw [if_pos ho] at hi
    rcases List.mem_cons.mp hi with rfl | hmem
    · omega
    · have := hwf _ hmem; omega
  · rw [if_neg ho] at hi
    have := hwf _ hi; omega

theorem sendCommand_notmem (st : cdp.ClientState) (o : cdp.SendOutcome)
    (hwf : clientWF st) (ho : o ≠ .clientClosed) :
    (cdp.SendCommand st o).2.requestID ∉ (cdp.SendCommand st o).2.pending := by
  rw [sendCommand_pending st o hwf, if_neg ho, sendCommand_requestID]
  intro hmem
  have := hwf _ hmem
  omega

theorem sendCommandToTarget_closed (st : cdp.ClientState) (targetID label : String)
    (ao o : cdp.SendOutcome) :
    (cdp.SendCommandToTarget st targetID label ao o).2.closed = st.closed := by
  unfold cdp.SendCommandToTarget
  split
  · exact sendCommand_closed st o
  · split
    · next e st1 heq =>
        have h1 : st1 = (cdp.SendCommand st ao).2 := by rw [heq]
        subst h1
        exact sendCommand_closed st ao
    · next u st1 heq =>
        have h1 : st1 = (cdp.SendCommand st ao).2 := by rw [heq]
        subst h1
        rw [sendCommand_closed]
        exact sendCommand_closed st ao

/-- C7: after a browser-scoped or target-scoped call returns — with a
result, a protocol error, a write failure or a timeout — no pending entry
remains for its request id; a call cut off by shutdown has its entry
dropped when Close completes, and after Close the pending map is empty;
the allocation invariant is maintained. -/
theorem C7_pending_map_hygiene
    (st : cdp.ClientState) (o ao : cdp.SendOutcome) (targetID label : String)
    (hwf : clientWF st) (hcl : st.closed = false) :
    (o ≠ .clientClosed →
        (cdp.SendCommand st o).2.requestID ∉ (cdp.SendCommand st o).2.pending) ∧
    (cdp.Close (cdp.SendCommand st o).2).pending = [] ∧
    (ao ≠ .clientClosed → o ≠ .clientClosed →
        (cdp.SendCommandToTarget st targetID label ao o).2.requestID ∉
          (cdp.SendCommandToTarget st targetID label ao o).2.pending) ∧
    (cdp.Close (cdp.SendCommandToTarget st targetID label ao o).2).pending = [] ∧
    clientWF (cdp.SendCommand st o).2 := by
  refine ⟨sendCommand_notmem st o hwf, ?_, ?_, ?_, sendCommand_wf st o hwf⟩
  · have hc := sendCommand_closed st o
    rw [hcl] at hc
    simp [cdp.Close, hc]
  · intro hao ho
    unfold cdp.SendCommandToTarget
    split
    · exact sendCommand_notmem st o hwf ho
    · split
      · next e st1 heq =>
          have h1 : st1 = (cdp.SendCommand st ao).2 := by rw [heq]
          subst h1
          exact sendCommand_notmem st ao hwf hao
      · next u st1 heq =>
          have h1 : st1 = (cdp.SendCommand st ao).2 := by rw [heq]
          subst h1
          exact sendCommand_notmem _ o (fun i hi => sendCommand_wf st ao hwf i hi) ho
  · have hc := sendCommandToTarget_closed st targetID label ao o
    rw [hcl] at hc
    simp [cdp.Close, hc]

def freshClient : cdp.ClientState :=
  { requestID := 0, pending := [], targetSessions := [], closed := false }

/-- Witness for C7 on a fresh client: a timed-out browser-scoped call and a
target-scoped call whose attach succeeded and whose command timed out. -/
theorem C7_pending_map_hygiene_witness :
    ((cdp.SendCommand freshClient .timeout).2.requestID ∉
        (cdp.SendCommand freshClient .timeout).2.pending) ∧
    (cdp.Close (cdp.SendCommand freshClient .timeout).2).pending = [] ∧
    ((cdp.SendCommandToTarget freshClient "t1" "lbl" .ok .timeout).2.requestID ∉
        (cdp.SendCommandToTarget freshClient "t1" "lbl" .ok .timeout).2.pending) ∧
    (cdp.Close (cdp.SendCommandToTarget freshClient "t1" "lbl" .ok .timeout).2).pending = [] :=
  ⟨(C7_pending_map_hygiene freshClient .timeout .ok "t1" "lbl"
      (by intro i hi; simp [freshClient] at hi) (by rfl)).1 (by decide),
   (C7_pending_map_hygiene freshClient .timeout .ok "t1" "lbl"
      (by intro i hi; simp [freshClient] at hi) (by rfl)).2.1,
   (C7_pending_map_hygiene freshClient .timeout .ok "t1" "lbl"
      (by intro i hi; simp [freshClient] at hi) (by rfl)).2.2.1 (by decide) (by decide),
   (C7_pending_map_hygiene freshClient .timeout .ok "t1" "lbl"
      (by intro i hi; simp [freshClient] at hi) (by rfl)).2.2.2.1⟩

/-! The attachment race (C2). -/

/-- C2 counterexample: the interleaving in which both callers pass the
cache check before either stores a label sends Target.attachToTarget twice
for the same target. -/
theorem C2_counterexample_double_attach :
    (cdp.runRace cdp.raceInit [true, false, true, false, true, false, true, false]).attachCount = 2 ∧
    ¬ (cdp.runRace cdp.raceInit [true, false, true, false, true, false, true, false]).attachCount ≤ 1 := by
  decide

def attachBudget : cdp.CallerPC → Nat
  | .start => 1
  | .attaching => 1
  | _ => 0

def raceInv (st : cdp.RaceState) : Prop :=
  st.attachCount + attachBudget st.pc1 + attachBudget st.pc2 ≤ 2

theorem stepRace_inv (st : cdp.RaceState) (who : Bool) (h : raceInv st) :
    raceInv (cdp.stepRace st who) := by
  obtain ⟨cache, count, pc1, pc2⟩ := st
  unfold raceInv at h ⊢
  cases who <;> cases pc1 <;> cases pc2 <;> cases cache <;>
    simp [cdp.stepRace, cdp.stepCaller, attachBudget] at h ⊢ <;> omega

theorem runRace_inv (sched : List Bool) :
    ∀ st : cdp.RaceState, raceInv st → raceInv (cdp.runRace st sched) := by
  induction sched with
  | nil => intro st h; exact h
  | cons a t ih => intro st h; exact ih _ (stepRace_inv st a h)

def pcNoAttach (pc : cdp.CallerPC) : Prop :=
  pc = .start ∨ pc = .sending ∨ pc = .done

def cachedInv (st : cdp.RaceState) : Prop :=
  st.attachCount = 0 ∧ st.cache.isSome = true ∧ pcNoAttach st.pc1 ∧ pcNoAttach st.pc2

theorem stepRace_cached (st : cdp.RaceState) (who : Bool) (h : cachedInv st) :
    cachedInv (cdp.stepRace st who) := by
  obtain ⟨cache, count, pc1, pc2⟩ := st
  obtain ⟨h0, hsome, hp1, hp2⟩ := h
  simp only at h0 hsome hp1 hp2
  subst h0
  cases cache with
  | none => simp at hsome
  | some l =>
      cases who <;>
        rcases hp1 with rfl | rfl | rfl <;> rcases hp2 with rfl | rfl | rfl <;>
          simp [cdp.stepRace, cdp.stepCaller, cachedInv, pcNoAttach]

theorem runRace_cached (sched : List Bool) :
    ∀ st : cdp.RaceState, cachedInv st → cachedInv (cdp.runRace st sched) := by
  induction sched with
  | nil => intro st h; exact h
  | cons a t ih => intro st h; exact ih _ (stepRace_cached st a h)

/-- C2 as amended: under arbitrary interleavings two concurrent callers can
attach at most twice — at most once per caller that saw an empty cache;
once a label is cached, callers that have not yet checked never attach at
all; and serialized calls attach exactly once, the second call reusing the
cached label. -/
theorem C2_at_most_one_attach_amended :
    (∀ sched : List Bool, (cdp.runRace cdp.raceInit sched).attachCount ≤ 2) ∧
    (∀ (sched : List Bool) (l : String),
        (cdp.runRace { cache := some l, attachCount := 0, pc1 := .start, pc2 := .start }
          sched).attachCount = 0) ∧
    (cdp.runRace cdp.raceInit [true, true, true, true, false, false, false, false]).attachCount = 1 := by
  refine ⟨?_, ?_, by decide⟩
  · intro sched
    have h := runRace_inv sched cdp.raceInit (by simp [raceInv, cdp.raceInit, attachBudget])
    unfold raceInv at h
    omega
  · intro sched l
    have h := runRace_cached sched
      { cache := some l, attachCount := 0, pc1 := .start, pc2 := .start }
      (by exact ⟨rfl, rfl, Or.inl rfl, Or.inl rfl⟩)
    exact h.1

/-! Port-pool verification (C5). -/

def portStrOK (x : String) : Bool :=
  match browser.parsePort x with
  | some n => decide (browser.minPortRange ≤ n ∧ n < browser.maxPortRange)
  | none => false

theorem initPorts_ok : ∀ x ∈ browser.initPool.freePortsStack, portStrOK x = true := by decide

theorem initPorts_nodup : browser.initPool.freePortsStack.Nodup := by decide

/-- The pool's alignment invariant plus distinctness of the stack. -/
def genInv (p : browser.PortPool) : Prop :=
  p.freePortsSet.Perm p.freePortsStack ∧ p.freePortsStack.Nodup

theorem ReturnPort_push {p : browser.PortPool} {port : String} {n : Nat}
    (hpp : browser.parsePort port = some n)
    (hr : ¬ (n < browser.minPortRange ∨ browser.maxPortRange ≤ n))
    (hmem : port ∉ p.freePortsSet) :
    browser.ReturnPort p port =
      { freePortsStack := p.freePortsStack ++ [port],
        freePortsSet := port :: p.freePortsSet } := by
  unfold browser.ReturnPort
  rw [hpp]
  simp [hr, hmem]

theorem ReturnPort_ok {p : browser.PortPool} {port : String}
    (hok : portStrOK port = true) (hmem : port ∉ p.freePortsSet) :
    browser.ReturnPort p port =
      { freePortsStack := p.freePortsStack ++ [port],
        freePortsSet := port :: p.freePortsSet } := by
  unfold portStrOK at hok
  cases hpp : browser.parsePort port with
  | none => rw [hpp] at hok; cases hok
  | some n =>
      rw [hpp] at hok
      simp only [decide_eq_true_eq] at hok
      exact ReturnPort_push hpp (by omega) hmem

theorem ReturnPort_out_of_range (p : browser.PortPool) (port : String)
    (h : ∀ n, browser.parsePort port = some n →
        n < browser.minPortRange ∨ browser.maxPortRange ≤ n) :
    browser.ReturnPort p port = p := by
  unfold browser.ReturnPort
  cases hpp : browser.parsePort port with
  | none => rfl
  | some n => simp [h n hpp]

theorem ReturnPort_already_free (p : browser.PortPool) (port : String)
    (h : port ∈ p.freePortsSet) :
    browser.ReturnPort p port = p := by
  unfold browser.ReturnPort
  cases hpp : browser.parsePort port with
  | none => rfl
  | some n =>
      by_cases hr : n < browser.minPortRange ∨ browser.maxPortRange ≤ n
      · simp [hr]
      · simp [hr, h]

theorem pop_genInv {p : browser.PortPool} {port : String}
    (h : p.freePortsStack.getLast? = some port) (hg : genInv p) :
    genInv { freePortsStack := p.freePortsStack.dropLast,
             freePortsSet := p.freePortsSet.filter (fun x => x ≠ port) } := by
  obtain ⟨halign, hnd⟩ := hg
  have hsplit : p.freePortsStack.dropLast ++ [port] = p.freePortsStack :=
    List.dropLast_append_getLast? port h
  have hnd2 : (p.freePortsStack.dropLast ++ [port]).Nodup := by rw [hsplit]; exact hnd
  have hport : port ∉ p.freePortsStack.dropLast := by
    rcases (List.nodup_append.mp hnd2) with ⟨_, _, hdisj⟩
    intro hmem
    exact hdisj hmem (by simp)
  constructor
  · have h1 : (p.freePortsSet.filter (fun x => x ≠ port)).Perm
        (p.freePortsStack.filter (fun x => x ≠ port)) := halign.filter _
    have h2 : p.freePortsStack.filter (fun x => x ≠ port)
        = p.freePortsStack.dropLast := by
      rw [← hsplit, List.filter_append]
      have h3 : p.freePortsStack.dropLast.filter (fun x => x ≠ port)
          = p.freePortsStack.dropLast := by
        apply List.filter_eq_self.mpr
        intro a ha
        simp only [ne_eq, decide_eq_true_eq]
        intro hEq
        exact hport (hEq ▸ ha)
      rw [h3]
      simp
    rw [h2] at h1
    exact h1
  · rcases List.nodup_append.mp hnd2 with ⟨hnd3, _, _⟩
    exact hnd3

theorem ReturnPort_genInv (p : browser.PortPool) (port : String) (hg : genInv p) :
    genInv (browser.ReturnPort p port) := by
  obtain ⟨halign, hnd⟩ := hg
  by_cases hmem : port ∈ p.freePortsSet
  · rw [ReturnPort_already_free p port hmem]
    exact ⟨halign, hnd⟩
  · cases hpp : browser.parsePort port with
    | none =>
        have hid : browser.ReturnPort p port = p := by
          unfold browser.ReturnPort
          rw [hpp]
        rw [hid]
        exact ⟨halign, hnd⟩
    | some n =>
        by_cases hr : n < browser.minPortRange ∨ browser.maxPortRange ≤ n
        · rw [ReturnPort_out_of_range p port (fun m hm => by
            rw [hpp] at hm; injection hm with h2; omega)]
          exact ⟨halign, hnd⟩
        · rw [ReturnPort_push hpp hr hmem]
          have hstack : port ∉ p.freePortsStack := fun hc => hmem (halign.mem_iff.mpr hc)
          constructor
          · show (port :: p.freePortsSet).Perm (p.freePortsStack ++ [port])
            exact (halign.cons port).trans (@List.perm_append_comm _ [port] p.freePortsStack)
          · show (p.freePortsStack ++ [port]).Nodup
            refine List.nodup_append.mpr ⟨hnd, by simp, ?_⟩
            intro a ha hb
            simp only [List.mem_singleton] at hb
            subst hb
            exact hstack ha

theorem loop_genInv (probe : String → Bool) :
    ∀ (fuel : Nat) (p : browser.PortPool), genInv p →
      genInv (browser.getFreePortLoop probe fuel p).2 := by
  intro fuel
  induction fuel with
  | zero => intro p hg; exact hg
  | succ n ih =>
      intro p hg
      unfold browser.getFreePortLoop
      cases h : p.freePortsStack.getLast? with
      | none => exact hg
      | some port =>
          by_cases hp : probe port
          · simpa [hp] using pop_genInv h hg
          · simpa [hp] using ih _ (pop_genInv h hg)

theorem stepPool_genInv (probe : String → Bool) (st : browser.PoolRun)
    (op : browser.PoolOp) (hg : genInv st.pool) :
    genInv (browser.stepPool probe st op).pool := by
  cases op with
  | acquire =>
      unfold browser.stepPool
      cases hfp : browser.GetFreePort probe st.pool with
      | mk res pool1 =>
          have h1 : pool1 = (browser.GetFreePort probe st.pool).2 := by rw [hfp]
          cases res <;> simp only [] <;> rw [h1] <;>
            exact loop_genInv probe _ st.pool hg
  | release port =>
      unfold browser.stepPool
      by_cases hmem : port ∈ st.held
      · simpa [hmem] using ReturnPort_genInv st.pool port hg
      · simpa [hmem] using hg

theorem runPool_genInv (probe : String → Bool) (ops : List browser.PoolOp) :
    genInv (browser.runPool probe ops).pool := by
  have hfold : ∀ st : browser.PoolRun, genInv st.pool →
      genInv ((ops.foldl (browser.stepPool probe) st)).pool := by
    induction ops with
    | nil => intro st h; exact h
    | cons a t ih => intro st h; exact ih _ (stepPool_genInv probe st a h)
  exact hfold _ ⟨List.Perm.refl _, initPorts_nodup⟩

/-- Conservation: the free stack plus the held ports is always a
rearrangement of the initial 50 ports (under a succeeding probe). -/
def consInv (st : browser.PoolRun) : Prop :=
  genInv st.pool ∧
  (st.pool.freePortsStack ++ st.held).Perm browser.initPool.freePortsStack

theorem GetFreePort_true_pop {p : browser.PortPool} {port : String}
    (h : p.freePortsStack.getLast? = some port) :
    browser.GetFreePort (fun _ => true) p =
      (some port, { freePortsStack := p.freePortsStack.dropLast,
                    freePortsSet := p.freePortsSet.filter (fun x => x ≠ port) }) := by
  unfold browser.GetFreePort
  cases hlen : p.freePortsStack.length with
  | zero =>
      have hnil : p.freePortsStack = [] := List.length_eq_zero.mp hlen
      rw [hnil] at h
      cases h
  | succ k =>
      unfold browser.getFreePortLoop
      rw [h]
      simp

theorem stepPool_consInv (st : browser.PoolRun) (op : browser.PoolOp) (h : consInv st) :
    consInv (browser.stepPool (fun _ => true) st op) := by
  obtain ⟨hg, hperm⟩ := h
  cases op with
  | acquire =>
      cases hl : st.pool.freePortsStack.getLast? with
      | none =>
          have hfp : browser.GetFreePort (fun _ => true) st.pool = (none, st.pool) := by
            unfold browser.GetFreePort
            cases hlen : st.pool.freePortsStack.length with
            | zero => rfl
            | succ k =>
                unfold browser.getFreePortLoop
                rw [hl]
          unfold browser.stepPool
          rw [hfp]
          exact ⟨hg, hperm⟩
      | some port =>
          have hsplit : st.pool.freePortsStack.dropLast ++ [port] = st.pool.freePortsStack :=
            List.dropLast_append_getLast? port hl
          unfold browser.stepPool
          rw [GetFreePort_true_pop hl]
          refine ⟨pop_genInv hl hg, ?_⟩
          show (st.pool.freePortsStack.dropLast ++ (st.held ++ [port])).Perm
            browser.initPool.freePortsStack
          have h1 : (st.pool.freePortsStack.dropLast ++ (st.held ++ [port])).Perm
              (st.pool.freePortsStack.dropLast ++ ([port] ++ st.held)) :=
            List.Perm.append_left _ (@List.perm_append_comm _ st.held [port])
          have h2 : st.pool.freePortsStack.dropLast ++ ([port] ++ st.held)
              = (st.pool.freePortsStack.dropLast ++ [port]) ++ st.held := by
            rw [List.append_assoc]
          refine h1.trans ?_
          rw [h2, hsplit]
          exact hperm
  | release port =>
      by_cases hmem : port ∈ st.held
      · have hinstack : port ∈ st.pool.freePortsStack ++ st.held :=
          List.mem_append.mpr (Or.inr hmem)
        have hininit : port ∈ browser.initPool.freePortsStack := hperm.mem_iff.mp hinstack
        have hok : portStrOK port = true := initPorts_ok port hininit
        have hnd : (st.pool.freePortsStack ++ st.held).Nodup :=
          (hperm.nodup_iff).mpr initPorts_nodup
        have hnotstack : port ∉ st.pool.freePortsStack := by
          rcases List.nodup_append.mp hnd with ⟨_, _, hdisj⟩
          intro hc
          exact hdisj hc hmem
        have hnotset : port ∉ st.pool.freePortsSet := fun hc =>
          hnotstack (hg.1.mem_iff.mp hc)
        simp only [browser.stepPool]
        rw [if_pos hmem, ReturnPort_ok hok hnotset]
        constructor
        · exact ⟨(hg.1.cons port).trans (@List.perm_append_comm _ [port] st.pool.freePortsStack),
            by
              show (st.pool.freePortsStack ++ [port]).Nodup
              refine List.nodup_append.mpr ⟨hg.2, by simp, ?_⟩
              intro a ha hb
              simp only [List.mem_singleton] at hb
              subst hb
              exact hnotstack ha⟩
        · show ((st.pool.freePortsStack ++ [port]) ++ st.held.erase port).Perm
            browser.initPool.freePortsStack
          have hh : st.held.Perm (port :: st.held.erase port) := List.perm_cons_erase hmem
          have h1 : (st.pool.freePortsStack ++ [port]) ++ st.held.erase port
              = st.pool.freePortsStack ++ (port :: st.held.erase port) := by
            rw [List.append_assoc]
            rfl
          rw [h1]
          exact (List.Perm.append_left _ hh.symm).trans hperm
      · simp only [browser.stepPool]
        rw [if_neg hmem]
        exact ⟨hg, hperm⟩

theorem foldPool_consInv (ops : List browser.PoolOp) :
    ∀ st : browser.PoolRun, consInv st →
      consInv (ops.foldl (browser.stepPool (fun _ => true)) st) := by
  induction ops with
  | nil => intro st h; exact h
  | cons a t ih => intro st h; exact ih _ (stepPool_consInv st a h)

theorem runPool_consInv (ops : List browser.PoolOp) :
    consInv (browser.runPool (fun _ => true) ops) := by
  apply foldPool_consInv
  constructor
  · exact ⟨List.Perm.refl _, initPorts_nodup⟩
  · simp

/-- A listen-probe that reports port 9271 as busy. -/
def probeBusy9271 : String → Bool := fun s => s ≠ "9271"

/-- C5 counterexample: with one probe failure the popped port is discarded
for good, so after one contract-respecting acquire/release pair the pool is
at rest with 49 free ports, not 50. -/
theorem C5_counterexample_probe_leak :
    (browser.runPool probeBusy9271 [.acquire, .release "9270"]).held = [] ∧
    (browser.runPool probeBusy9271 [.acquire, .release "9270"]).pool.freePortsSet.length = 49 ∧
    ¬ (browser.runPool probeBusy9271 [.acquire, .release "9270"]).pool.freePortsSet.length = 50 := by
  decide

/-- C5 as amended: under any probe the free set and the free stack always
hold the same ports with no duplicates; when every listen-probe succeeds,
stack-plus-held is a permutation of the initial 50 ports, so the free-set
cardinality at rest is 50; a return outside [9222, 9272) (or unparsable)
and a return of an already-free port leave the pool unchanged. -/
theorem C5_port_conservation_amended :
    (∀ (probe : String → Bool) (ops : List browser.PoolOp),
        browser.poolAligned (browser.runPool probe ops).pool ∧
        (browser.runPool probe ops).pool.freePortsStack.Nodup) ∧
    (∀ ops : List browser.PoolOp,
        ((browser.runPool (fun _ => true) ops).pool.freePortsStack ++
            (browser.runPool (fun _ => true) ops).held).Perm
          browser.initPool.freePortsStack ∧
        ((browser.runPool (fun _ => true) ops).held = [] →
          (browser.runPool (fun _ => true) ops).pool.freePortsSet.length = 50)) ∧
    (∀ (p : browser.PortPool) (port : String),
        (∀ n, browser.parsePort port = some n →
            n < browser.minPortRange ∨ browser.maxPortRange ≤ n) →
        browser.ReturnPort p port = p) ∧
    (∀ (p : browser.PortPool) (port : String),
        port ∈ p.freePortsSet → browser.ReturnPort p port = p) := by
  refine ⟨?_, ?_, ReturnPort_out_of_range, ReturnPort_already_free⟩
  · intro probe ops
    exact (runPool_genInv probe ops)
  · intro ops
    have h := runPool_consInv ops
    refine ⟨h.2, ?_⟩
    intro hrest
    have hinit : browser.initPool.freePortsStack.length = 50 := by decide
    have hlen := h.2.length_eq
    rw [hrest] at hlen
    simp only [List.append_nil] at hlen
    have hset := h.1.1.length_eq
    rw [hset, hlen, hinit]

/-- Witness for the amended C5: a full acquire/release round trip back to 50
free ports, a rejected return of an unparsable and of an out-of-range port,
and an ignored duplicate return. -/
theorem C5_port_conservation_amended_witness :
    (browser.runPool (fun _ => true) [.acquire, .release "9271"]).pool.freePortsSet.length = 50 ∧
    browser.ReturnPort browser.initPool "banana" = browser.initPool ∧
    browser.ReturnPort browser.initPool "99999" = browser.initPool ∧
    browser.ReturnPort browser.initPool "9222" = browser.initPool :=
  ⟨(C5_port_conservation_amended.2.1 [.acquire, .release "9271"]).2 (by decide),
   C5_port_conservation_amended.2.2.1 browser.initPool "banana" (fun n h => by
      rw [show browser.parsePort "banana" = none from by decide] at h
      exact Option.noConfusion h),
   C5_port_conservation_amended.2.2.1 browser.initPool "99999" (fun n h => by
      rw [show browser.parsePort "99999" = some 99999 from by decide] at h
      injection h with h2
      subst h2
      right
      decide),
   C5_port_conservation_amended.2.2.2 browser.initPool "9222" (by decide)⟩

end BrowserQuery
